import Mathlib

/-!
Verification development for the petstore API test-automation repository.

The TypeScript contract layer (typed resource models, data factories,
endpoint templates, service wrappers, shared utilities) is shallowly
embedded below.  JavaScript objects with optional fields are modelled as
structures whose optional fields have type `Option _` (`none` = the key is
absent / the value is `undefined`).  A TypeScript override object with all
fields optional (written here as `...Upd`) wraps every field of the model in
one more `Option` layer: the outer layer records whether the key occurs in
the override object at all.  Nondeterministic runtime inputs (`Date.now()`,
`Math.random()`, the file system, `toISOString()`) are passed as explicit
parameters: one parameter per dynamic call site, in source order.
`Math.random()` results are modelled as rationals in `[0, 1)`.
-/

/-! ## Typed resource models (src/api/types) -/

/-- Pet status union type: `'available' | 'pending' | 'sold'`. -/
inductive PetStatus where
  | available
  | pending
  | sold
deriving DecidableEq, Repr

/-- Pet category: `{ id: number; name: string }`. -/
structure PetCategory where
  id : Int
  name : String
deriving DecidableEq, Repr

/-- Pet tag: `{ id: number; name: string }`. -/
structure PetTag where
  id : Int
  name : String
deriving DecidableEq, Repr

/-- Pet resource.  `id`, `category` and `tags` are optional fields. -/
structure Pet where
  id : Option Int
  category : Option PetCategory
  name : String
  photoUrls : List String
  tags : Option (List PetTag)
  status : PetStatus
deriving DecidableEq, Repr

/-- Override object for `Pet` (all six keys may be absent).  The outer
`Option` layer records whether the key occurs in the override object. -/
structure PetUpd where
  id : Option (Option Int) := none
  category : Option (Option PetCategory) := none
  name : Option String := none
  photoUrls : Option (List String) := none
  tags : Option (Option (List PetTag)) := none
  status : Option PetStatus := none
deriving DecidableEq, Repr

/-- Order status union type: `'placed' | 'approved' | 'delivered'`. -/
inductive OrderStatus where
  | placed
  | approved
  | delivered
deriving DecidableEq, Repr

/-- Order resource; every field is optional in the source interface. -/
structure Order where
  id : Option Int
  petId : Option Int
  quantity : Option Int
  shipDate : Option String
  status : Option OrderStatus
  complete : Option Bool
deriving DecidableEq, Repr

/-- Override object for `Order`. -/
structure OrderUpd where
  id : Option (Option Int) := none
  petId : Option (Option Int) := none
  quantity : Option (Option Int) := none
  shipDate : Option (Option String) := none
  status : Option (Option OrderStatus) := none
  complete : Option (Option Bool) := none
deriving DecidableEq, Repr

/-- User resource; every field is optional in the source interface. -/
structure User where
  id : Option Int
  username : Option String
  firstName : Option String
  lastName : Option String
  email : Option String
  password : Option String
  phone : Option String
  userStatus : Option Int
deriving DecidableEq, Repr

/-- Override object for `User`. -/
structure UserUpd where
  id : Option (Option Int) := none
  username : Option (Option String) := none
  firstName : Option (Option String) := none
  lastName : Option (Option String) := none
  email : Option (Option String) := none
  password : Option (Option String) := none
  phone : Option (Option String) := none
  userStatus : Option (Option Int) := none
deriving DecidableEq, Repr

/-! ## Shared utilities (src/utils/common.utils.ts) -/

/-- Embeds `generateUniqueId`: `return Date.now();`.  The current clock
reading (milliseconds, a nonnegative integer) is the explicit argument. -/
def generateUniqueId (now : Nat) : Nat := now

/-- Embeds `generateUniqueName(prefix)`: the template literal
built from the prefix, an underscore and `generateUniqueId()`. -/
def generateUniqueName (pre : String) (now : Nat) : String :=
  pre ++ "_" ++ Nat.repr (generateUniqueId now)

/-- Embeds the index computation `Math.floor(Math.random() * array.length)`
used by `getRandomItem`; `r` is the `Math.random()` result. -/
def randIndex (r : ℚ) (n : Nat) : Nat := (Rat.floor (r * n)).toNat

/-- Embeds `getRandomItem`: `array[Math.floor(Math.random() * array.length)]`.
Out-of-range indexing yields `undefined` in JavaScript, modelled as `none`. -/
def getRandomItem (r : ℚ) (a : List α) : Option α := a[randIndex r a.length]?

/-- Embeds `deepMerge` operating on the universal JavaScript-value model
defined below (`{ ...target, ...source }`); see `JsVal` and `deepMerge`. -/
inductive JsVal where
  | num (n : Int)
  | str (s : String)
  | boolean (b : Bool)
  | obj (fields : List (String × JsVal))

/-- JavaScript object model: an ordered list of key/value pairs. -/
abbrev JsObj := List (String × JsVal)

/-- Embeds `deepMerge(target, source)`: `return { ...target, ...source };`.
Spread semantics: the result lists `target`'s keys in order, each overridden
by `source`'s value when `source` also has the key, followed by the keys of
`source` that `target` lacks, in `source` order. -/
def deepMerge (target source : JsObj) : JsObj :=
  (target.map fun p =>
    match source.lookup p.1 with
    | some v => (p.1, v)
    | none => p) ++
  source.filter fun p => (target.lookup p.1).isNone

/-- JavaScript truthiness of a `string | undefined` value: `undefined` and
the empty string are falsy. -/
def truthyStr : Option String → Bool
  | some s => !s.isEmpty
  | none => false

/-! ## Data factories (src/fixtures/factories) -/

/-- Embeds the spread merge `{ ...existingPet, ...updates }` over `Pet`. -/
def petSpread (e : Pet) (u : PetUpd) : Pet :=
  { id := u.id.getD e.id
    category := u.category.getD e.category
    name := u.name.getD e.name
    photoUrls := u.photoUrls.getD e.photoUrls
    tags := u.tags.getD e.tags
    status := u.status.getD e.status }

/-- Embeds the spread merge `{ ...defaultOrder, ...overrides }` over `Order`. -/
def orderSpread (e : Order) (u : OrderUpd) : Order :=
  { id := u.id.getD e.id
    petId := u.petId.getD e.petId
    quantity := u.quantity.getD e.quantity
    shipDate := u.shipDate.getD e.shipDate
    status := u.status.getD e.status
    complete := u.complete.getD e.complete }

/-- Embeds the spread merge `{ ...defaultUser, ...overrides }` over `User`. -/
def userSpread (e : User) (u : UserUpd) : User :=
  { id := u.id.getD e.id
    username := u.username.getD e.username
    firstName := u.firstName.getD e.firstName
    lastName := u.lastName.getD e.lastName
    email := u.email.getD e.email
    password := u.password.getD e.password
    phone := u.phone.getD e.phone
    userStatus := u.userStatus.getD e.userStatus }

/-- Empty override object for `Pet` (factory called with no overrides). -/
def emptyPetUpd : PetUpd := {}

/-- Empty override object for `Order`. -/
def emptyOrderUpd : OrderUpd := {}

/-- Empty override object for `User`. -/
def emptyUserUpd : UserUpd := {}

/-- Default pet categories (pet.factory.ts `DEFAULT_CATEGORIES`). -/
def DEFAULT_CATEGORIES : List PetCategory :=
  [⟨1, "Dogs"⟩, ⟨2, "Cats"⟩, ⟨3, "Birds"⟩, ⟨4, "Fish"⟩]

/-- Default pet tags (pet.factory.ts `DEFAULT_TAGS`). -/
def DEFAULT_TAGS : List PetTag :=
  [⟨1, "friendly"⟩, ⟨2, "energetic"⟩, ⟨3, "calm"⟩, ⟨4, "playful"⟩]

/-- Embeds `generateUniquePetId`: `return generateUniqueId();`. -/
def generateUniquePetId (now : Nat) : Nat := generateUniqueId now

/-- Object literal built by `createPetData` before the override spread.
`ts` is the `timestamp` const, `tsName` the clock reading inside
`generateUniqueName('TestPet')`, `tsId` the one inside
`generateUniquePetId()`; `rCat`, `rTag` are the two `Math.random()` calls.
The `tags` entry `[getRandomItem(DEFAULT_TAGS)]` is a one-element array;
`Option.toList` renders it (the draw is in range for any random in
`[0, 1)`). -/
def defaultPetData (ts tsName tsId : Nat) (rCat rTag : ℚ) : Pet :=
  { id := some (generateUniquePetId tsId : Int)
    name := generateUniqueName "TestPet" tsName
    photoUrls := ["https://example.com/photo_" ++ Nat.repr ts ++ ".jpg"]
    status := .available
    category := getRandomItem rCat DEFAULT_CATEGORIES
    tags := some (getRandomItem rTag DEFAULT_TAGS).toList }

/-- Embeds `createPetData(overrides)`: the default object literal spread
with the overrides (`{ ...defaults, ...overrides }`). -/
def createPetData (ts tsName tsId : Nat) (rCat rTag : ℚ) (overrides : PetUpd) : Pet :=
  petSpread (defaultPetData ts tsName tsId rCat rTag) overrides

/-- Embeds `updatePetData(existingPet, updates)`:
`return { ...existingPet, ...updates };`. -/
def updatePetData (existingPet : Pet) (updates : PetUpd) : Pet :=
  petSpread existingPet updates

/-- Embeds `generateUniqueUsername(prefix)` (default prefix `'user'`). -/
def generateUniqueUsername (pre : String) (now : Nat) : String :=
  pre ++ "_" ++ Nat.repr now

/-- Embeds `generateEmail(username?)`: `username || generateRandomString(8)
.toLowerCase()` followed by `'@example.com'`.  `rand8` stands for the
`generateRandomString(8)` result (only consulted when `username` is falsy). -/
def generateEmail (username : Option String) (rand8 : String) : String :=
  (if truthyStr username then username.getD "" else rand8.toLower) ++ "@example.com"

/-- Embeds the `defaultUser` literal of `createUserData`.  `ts` is the
`timestamp` const, `tsId` the clock reading inside `generateUniqueId()`. -/
def defaultUserData (ts tsId : Nat) : User :=
  { id := some (generateUniqueId tsId : Int)
    username := some ("testuser_" ++ Nat.repr ts)
    firstName := some "Test"
    lastName := some "User"
    email := some (generateEmail (some ("testuser_" ++ Nat.repr ts)) "")
    password := some "Test@123"
    phone := some "+1234567890"
    userStatus := some 1 }

/-- Embeds `createUserData(overrides)`:
`return { ...defaultUser, ...overrides };`. -/
def createUserData (ts tsId : Nat) (overrides : UserUpd) : User :=
  userSpread (defaultUserData ts tsId) overrides

/-- Embeds `updateUserData(existingUser, updates)`. -/
def updateUserData (existingUser : User) (updates : UserUpd) : User :=
  userSpread existingUser updates

/-- Embeds `generateUniqueOrderId`: `return generateUniqueId();`. -/
def generateUniqueOrderId (now : Nat) : Nat := generateUniqueId now

/-- Embeds the `defaultOrder` literal of `createOrderData`.  `rPet` and
`rQty` are the two `Math.random()` calls (`petId` is
`Math.floor(random * 1000) + 1`, `quantity` is `Math.floor(random * 5) + 1`);
`isoNow` is the `new Date().toISOString()` rendering. -/
def defaultOrderData (tsId : Nat) (rPet rQty : ℚ) (isoNow : String) : Order :=
  { id := some (generateUniqueOrderId tsId : Int)
    petId := some (Rat.floor (rPet * 1000) + 1)
    quantity := some (Rat.floor (rQty * 5) + 1)
    shipDate := some isoNow
    status := some .placed
    complete := some false }

/-- Embeds `createOrderData(overrides)`:
`return { ...defaultOrder, ...overrides };`. -/
def createOrderData (tsId : Nat) (rPet rQty : ℚ) (isoNow : String)
    (overrides : OrderUpd) : Order :=
  orderSpread (defaultOrderData tsId rPet rQty isoNow) overrides

/-- Embeds `updateOrderData(existingOrder, updates)`. -/
def updateOrderData (existingOrder : Order) (updates : OrderUpd) : Order :=
  orderSpread existingOrder updates

/-! ## Endpoint templates (src/config/endpoints.ts) -/

/-- `PET_ENDPOINTS.BASE`. -/
def PET_ENDPOINTS_BASE : String := "pet"

/-- `PET_ENDPOINTS.BY_ID(id)`. -/
def PET_ENDPOINTS_BY_ID (id : Int) : String := "pet/" ++ Int.repr id

/-- `PET_ENDPOINTS.BY_STATUS(status)`. -/
def PET_ENDPOINTS_BY_STATUS (status : String) : String :=
  "pet/findByStatus?status=" ++ status

/-- `PET_ENDPOINTS.BY_TAGS(tags)` (the tag list is joined with commas). -/
def PET_ENDPOINTS_BY_TAGS (tags : List String) : String :=
  "pet/findByTags?tags=" ++ String.intercalate "," tags

/-- `STORE_ENDPOINTS.INVENTORY`. -/
def STORE_ENDPOINTS_INVENTORY : String := "store/inventory"

/-- `STORE_ENDPOINTS.ORDER`. -/
def STORE_ENDPOINTS_ORDER : String := "store/order"

/-- `STORE_ENDPOINTS.ORDER_BY_ID(id)`. -/
def STORE_ENDPOINTS_ORDER_BY_ID (id : Int) : String := "store/order/" ++ Int.repr id

/-- `USER_ENDPOINTS.BASE`. -/
def USER_ENDPOINTS_BASE : String := "user"

/-- `USER_ENDPOINTS.LOGIN`. -/
def USER_ENDPOINTS_LOGIN : String := "user/login"

/-- `USER_ENDPOINTS.LOGOUT`. -/
def USER_ENDPOINTS_LOGOUT : String := "user/logout"

/-- `USER_ENDPOINTS.BY_USERNAME(username)`. -/
def USER_ENDPOINTS_BY_USERNAME (username : String) : String := "user/" ++ username

/-- `USER_ENDPOINTS.CREATE_WITH_ARRAY`. -/
def USER_ENDPOINTS_CREATE_WITH_ARRAY : String := "user/createWithArray"

/-- `USER_ENDPOINTS.CREATE_WITH_LIST`. -/
def USER_ENDPOINTS_CREATE_WITH_LIST : String := "user/createWithList"

/-! ## HTTP request model and service wrappers (src/api/services) -/

/-- HTTP method of a service-wrapper request. -/
inductive HttpMethod where
  | get
  | post
  | put
  | delete
deriving DecidableEq, Repr

/-- Name/MIME/content triple of the file part of a multipart payload.
Buffers are modelled as strings (the source builds them from string
literals or file contents). -/
structure FilePart where
  name : String
  mimeType : String
  buffer : String
deriving DecidableEq, Repr

/-- Multipart payload of `uploadImage`: a file part plus the
`additionalMetadata` key, present only when the argument is truthy. -/
structure MultipartPayload where
  file : FilePart
  additionalMetadata : Option String
deriving DecidableEq, Repr

/-- Request payload, tagged by encoding.  JSON payloads carry the typed
resource exactly as passed by the caller. -/
inductive RequestBody where
  | empty
  | jsonPet (p : Pet)
  | jsonUser (u : User)
  | jsonUsers (us : List User)
  | jsonOrder (o : Order)
  | form (fields : List (String × String))
  | multipart (mp : MultipartPayload)
deriving DecidableEq, Repr

/-- One HTTP request as assembled by a service wrapper. -/
structure Request where
  method : HttpMethod
  url : String
  headers : List (String × String)
  body : RequestBody
deriving DecidableEq, Repr

/-- Raw response: status code plus unparsed body, returned to the caller
untouched. -/
structure Response where
  status : Int
  body : String
deriving DecidableEq, Repr

/-- Behaviour of the injected Playwright request context: any function from
requests to responses (the transport is an opaque external collaborator). -/
abbrev ApiRequestContext := Request → Response

/-- Headers sent by the JSON-bearing operations. -/
def jsonHeaders : List (String × String) :=
  [("Content-Type", "application/json"), ("Accept", "application/json")]

/-- Headers sent by the body-less JSON operations. -/
def acceptHeader : List (String × String) :=
  [("Accept", "application/json")]

/-! ### PetService -/

/-- Request built by `PetService.createPet`. -/
def createPetReq (petData : Pet) : Request :=
  ⟨.post, PET_ENDPOINTS_BASE, jsonHeaders, .jsonPet petData⟩

/-- Embeds `PetService.createPet`: one POST through the request context. -/
def createPet (ctx : ApiRequestContext) (petData : Pet) : Response :=
  ctx (createPetReq petData)

/-- Request built by `PetService.getPet`. -/
def getPetReq (petId : Int) : Request :=
  ⟨.get, PET_ENDPOINTS_BY_ID petId, acceptHeader, .empty⟩

/-- Embeds `PetService.getPet`. -/
def getPet (ctx : ApiRequestContext) (petId : Int) : Response :=
  ctx (getPetReq petId)

/-- Request built by `PetService.updatePet`. -/
def updatePetReq (petData : Pet) : Request :=
  ⟨.put, PET_ENDPOINTS_BASE, jsonHeaders, .jsonPet petData⟩

/-- Embeds `PetService.updatePet`. -/
def updatePet (ctx : ApiRequestContext) (petData : Pet) : Response :=
  ctx (updatePetReq petData)

/-- Request built by `PetService.deletePet`. -/
def deletePetReq (petId : Int) : Request :=
  ⟨.delete, PET_ENDPOINTS_BY_ID petId, acceptHeader, .empty⟩

/-- Embeds `PetService.deletePet`. -/
def deletePet (ctx : ApiRequestContext) (petId : Int) : Response :=
  ctx (deletePetReq petId)

/-- Request built by `PetService.findPetsByStatus`. -/
def findPetsByStatusReq (status : String) : Request :=
  ⟨.get, PET_ENDPOINTS_BY_STATUS status, acceptHeader, .empty⟩

/-- Embeds `PetService.findPetsByStatus`. -/
def findPetsByStatus (ctx : ApiRequestContext) (status : String) : Response :=
  ctx (findPetsByStatusReq status)

/-- Boolean infix test on character lists, used to model
`String.includes`. -/
def listContainsSub (sub : List Char) : List Char → Bool
  | [] => sub.isPrefixOf ([] : List Char)
  | c :: cs => sub.isPrefixOf (c :: cs) || listContainsSub sub cs

/-- Models `s.includes(sub)` from JavaScript. -/
def strIncludes (s sub : String) : Bool := listContainsSub sub.data s.data

/-- Models Node's `path.basename` (last `/`-separated component). -/
def basename (p : String) : String := (p.splitOn "/").getLastD p

/-- Embeds the `try`/`catch` file-resolution block of
`PetService.uploadImage`, returning `(fileName, fileBuffer)`.  The file
system is the explicit map `fsys` (`none` = `readFileSync` throws); the
`catch` branch substitutes the in-memory placeholder. -/
def uploadImageFile (fsys : String → Option String) (filePath : String) :
    String × String :=
  if strIncludes filePath "fake-path" || strIncludes filePath "document.pdf" then
    (basename filePath, "dummy image content")
  else
    match fsys filePath with
    | some contents => (basename filePath, contents)
    | none => ("test.jpg", "dummy content")

/-- Request built by `PetService.uploadImage`: a single multipart POST; the
`additionalMetadata` key is added only when the argument is truthy. -/
def uploadImageReq (fsys : String → Option String) (petId : Int)
    (filePath : String) (additionalMetadata : Option String) : Request :=
  let fileName := (uploadImageFile fsys filePath).1
  let fileBuffer := (uploadImageFile fsys filePath).2
  ⟨.post, PET_ENDPOINTS_BY_ID petId ++ "/uploadImage", [],
    .multipart
      ⟨⟨fileName,
        if fileName.endsWith ".pdf" then "application/pdf" else "image/jpeg",
        fileBuffer⟩,
        if truthyStr additionalMetadata then additionalMetadata else none⟩⟩

/-- Embeds `PetService.uploadImage`. -/
def uploadImage (ctx : ApiRequestContext) (fsys : String → Option String)
    (petId : Int) (filePath : String) (additionalMetadata : Option String) :
    Response :=
  ctx (uploadImageReq fsys petId filePath additionalMetadata)

/-- Embeds the `formData` object assembled by `PetService.updatePetWithForm`:
`if (name) formData.name = name; if (status) formData.status = status;`. -/
def updatePetWithFormData (name status : Option String) :
    List (String × String) :=
  (if truthyStr name then [("name", name.getD "")] else []) ++
  (if truthyStr status then [("status", status.getD "")] else [])

/-- Request built by `PetService.updatePetWithForm`. -/
def updatePetWithFormReq (petId : Int) (name status : Option String) : Request :=
  ⟨.post, PET_ENDPOINTS_BY_ID petId,
    [("Content-Type", "application/x-www-form-urlencoded")],
    .form (updatePetWithFormData name status)⟩

/-- Embeds `PetService.updatePetWithForm`. -/
def updatePetWithForm (ctx : ApiRequestContext) (petId : Int)
    (name status : Option String) : Response :=
  ctx (updatePetWithFormReq petId name status)

/-! ### UserService -/

/-- Request built by `UserService.createUser`. -/
def createUserReq (userData : User) : Request :=
  ⟨.post, USER_ENDPOINTS_BASE, jsonHeaders, .jsonUser userData⟩

/-- Embeds `UserService.createUser`. -/
def createUser (ctx : ApiRequestContext) (userData : User) : Response :=
  ctx (createUserReq userData)

/-- Request built by `UserService.createUsersWithArray`. -/
def createUsersWithArrayReq (users : List User) : Request :=
  ⟨.post, USER_ENDPOINTS_CREATE_WITH_ARRAY, jsonHeaders, .jsonUsers users⟩

/-- Embeds `UserService.createUsersWithArray`. -/
def createUsersWithArray (ctx : ApiRequestContext) (users : List User) : Response :=
  ctx (createUsersWithArrayReq users)

/-- Request built by `UserService.createUsersWithList`. -/
def createUsersWithListReq (users : List User) : Request :=
  ⟨.post, USER_ENDPOINTS_CREATE_WITH_LIST, jsonHeaders, .jsonUsers users⟩

/-- Embeds `UserService.createUsersWithList`. -/
def createUsersWithList (ctx : ApiRequestContext) (users : List User) : Response :=
  ctx (createUsersWithListReq users)

/-- Request built by `UserService.getUserByUsername`. -/
def getUserByUsernameReq (username : String) : Request :=
  ⟨.get, USER_ENDPOINTS_BY_USERNAME username, acceptHeader, .empty⟩

/-- Embeds `UserService.getUserByUsername`. -/
def getUserByUsername (ctx : ApiRequestContext) (username : String) : Response :=
  ctx (getUserByUsernameReq username)

/-- Request built by `UserService.updateUser`. -/
def updateUserReq (username : String) (userData : User) : Request :=
  ⟨.put, USER_ENDPOINTS_BY_USERNAME username, jsonHeaders, .jsonUser userData⟩

/-- Embeds `UserService.updateUser`. -/
def updateUser (ctx : ApiRequestContext) (username : String) (userData : User) :
    Response :=
  ctx (updateUserReq username userData)

/-- Request built by `UserService.deleteUser`. -/
def deleteUserReq (username : String) : Request :=
  ⟨.delete, USER_ENDPOINTS_BY_USERNAME username, acceptHeader, .empty⟩

/-- Embeds `UserService.deleteUser`. -/
def deleteUser (ctx : ApiRequestContext) (username : String) : Response :=
  ctx (deleteUserReq username)

/-- Request built by `UserService.login` (query string assembled by template
literal). -/
def loginReq (username password : String) : Request :=
  ⟨.get, USER_ENDPOINTS_LOGIN ++ "?username=" ++ username ++ "&password=" ++ password,
    acceptHeader, .empty⟩

/-- Embeds `UserService.login`. -/
def login (ctx : ApiRequestContext) (username password : String) : Response :=
  ctx (loginReq username password)

/-- Request built by `UserService.logout`. -/
def logoutReq : Request :=
  ⟨.get, USER_ENDPOINTS_LOGOUT, acceptHeader, .empty⟩

/-- Embeds `UserService.logout`. -/
def logout (ctx : ApiRequestContext) : Response :=
  ctx logoutReq

/-! ### StoreService -/

/-- Request built by `StoreService.getInventory`. -/
def getInventoryReq : Request :=
  ⟨.get, STORE_ENDPOINTS_INVENTORY, acceptHeader, .empty⟩

/-- Embeds `StoreService.getInventory`. -/
def getInventory (ctx : ApiRequestContext) : Response :=
  ctx getInventoryReq

/-- Request built by `StoreService.placeOrder`. -/
def placeOrderReq (orderData : Order) : Request :=
  ⟨.post, STORE_ENDPOINTS_ORDER, jsonHeaders, .jsonOrder orderData⟩

/-- Embeds `StoreService.placeOrder`. -/
def placeOrder (ctx : ApiRequestContext) (orderData : Order) : Response :=
  ctx (placeOrderReq orderData)

/-- Request built by `StoreService.getOrderById`. -/
def getOrderByIdReq (orderId : Int) : Request :=
  ⟨.get, STORE_ENDPOINTS_ORDER_BY_ID orderId, acceptHeader, .empty⟩

/-- Embeds `StoreService.getOrderById`. -/
def getOrderById (ctx : ApiRequestContext) (orderId : Int) : Response :=
  ctx (getOrderByIdReq orderId)

/-- Request built by `StoreService.deleteOrder`. -/
def deleteOrderReq (orderId : Int) : Request :=
  ⟨.delete, STORE_ENDPOINTS_ORDER_BY_ID orderId, acceptHeader, .empty⟩

/-- Embeds `StoreService.deleteOrder`. -/
def deleteOrder (ctx : ApiRequestContext) (orderId : Int) : Response :=
  ctx (deleteOrderReq orderId)

/-! ### Operational view of one wrapper invocation

A service object (`BaseService` subclass) holds exactly one piece of state:
the injected request context.  `serviceCall` is the small-step account of a
wrapper method body `return await this.request.<verb>(url, opts)`: it
returns the transport's response, the (unchanged) service object, and the
trace of requests put on the wire during the invocation. -/

/-- State of a service object: just the injected request context. -/
structure BaseService where
  request : ApiRequestContext

/-- One wrapper invocation: response, resulting service state, and the
trace of issued requests. -/
def serviceCall (svc : BaseService) (req : Request) :
    Response × BaseService × List Request :=
  (svc.request req, svc, [req])

/-- Stateful account of `PetService.createPet`. -/
def createPetCall (svc : BaseService) (petData : Pet) :
    Response × BaseService × List Request :=
  serviceCall svc (createPetReq petData)

/-- Stateful account of `PetService.getPet`. -/
def getPetCall (svc : BaseService) (petId : Int) :
    Response × BaseService × List Request :=
  serviceCall svc (getPetReq petId)

/-- Stateful account of `PetService.updatePet`. -/
def updatePetCall (svc : BaseService) (petData : Pet) :
    Response × BaseService × List Request :=
  serviceCall svc (updatePetReq petData)

/-- Stateful account of `PetService.deletePet`. -/
def deletePetCall (svc : BaseService) (petId : Int) :
    Response × BaseService × List Request :=
  serviceCall svc (deletePetReq petId)

/-- Stateful account of `PetService.findPetsByStatus`. -/
def findPetsByStatusCall (svc : BaseService) (status : String) :
    Response × BaseService × List Request :=
  serviceCall svc (findPetsByStatusReq status)

/-- Stateful account of `PetService.uploadImage`. -/
def uploadImageCall (svc : BaseService) (fsys : String → Option String)
    (petId : Int) (filePath : String) (additionalMetadata : Option String) :
    Response × BaseService × List Request :=
  serviceCall svc (uploadImageReq fsys petId filePath additionalMetadata)

/-- Stateful account of `PetService.updatePetWithForm`. -/
def updatePetWithFormCall (svc : BaseService) (petId : Int)
    (name status : Option String) : Response × BaseService × List Request :=
  serviceCall svc (updatePetWithFormReq petId name status)

/-- Stateful account of `UserService.createUser`. -/
def createUserCall (svc : BaseService) (userData : User) :
    Response × BaseService × List Request :=
  serviceCall svc (createUserReq userData)

/-- Stateful account of `UserService.createUsersWithArray`. -/
def createUsersWithArrayCall (svc : BaseService) (users : List User) :
    Response × BaseService × List Request :=
  serviceCall svc (createUsersWithArrayReq users)

/-- Stateful account of `UserService.createUsersWithList`. -/
def createUsersWithListCall (svc : BaseService) (users : List User) :
    Response × BaseService × List Request :=
  serviceCall svc (createUsersWithListReq users)

/-- Stateful account of `UserService.getUserByUsername`. -/
def getUserByUsernameCall (svc : BaseService) (username : String) :
    Response × BaseService × List Request :=
  serviceCall svc (getUserByUsernameReq username)

/-- Stateful account of `UserService.updateUser`. -/
def updateUserCall (svc : BaseService) (username : String) (userData : User) :
    Response × BaseService × List Request :=
  serviceCall svc (updateUserReq username userData)

/-- Stateful account of `UserService.deleteUser`. -/
def deleteUserCall (svc : BaseService) (username : String) :
    Response × BaseService × List Request :=
  serviceCall svc (deleteUserReq username)

/-- Stateful account of `UserService.login`. -/
def loginCall (svc : BaseService) (username password : String) :
    Response × BaseService × List Request :=
  serviceCall svc (loginReq username password)

/-- Stateful account of `UserService.logout`. -/
def logoutCall (svc : BaseService) : Response × BaseService × List Request :=
  serviceCall svc logoutReq

/-- Stateful account of `StoreService.getInventory`. -/
def getInventoryCall (svc : BaseService) : Response × BaseService × List Request :=
  serviceCall svc getInventoryReq

/-- Stateful account of `StoreService.placeOrder`. -/
def placeOrderCall (svc : BaseService) (orderData : Order) :
    Response × BaseService × List Request :=
  serviceCall svc (placeOrderReq orderData)

/-- Stateful account of `StoreService.getOrderById`. -/
def getOrderByIdCall (svc : BaseService) (orderId : Int) :
    Response × BaseService × List Request :=
  serviceCall svc (getOrderByIdReq orderId)

/-- Stateful account of `StoreService.deleteOrder`. -/
def deleteOrderCall (svc : BaseService) (orderId : Int) :
    Response × BaseService × List Request :=
  serviceCall svc (deleteOrderReq orderId)

/-- Metadata part carried by a multipart request body (`none` when the body
is not multipart or the metadata key is absent). -/
def reqMeta (r : Request) : Option String :=
  match r.body with
  | .multipart mp => mp.additionalMetadata
  | _ => none

/-- One-level shallow merge described by the claim wording: the merged
object's value at `k` is `source`'s whole value when `source` has the key
(nested objects replaced wholesale), `target`'s value otherwise.  Stated
extensionally, to be compared with `deepMerge` as embedded from the code. -/
def shallowMergeSpec (target source : JsObj) (k : String) : Option JsVal :=
  (source.lookup k).or (target.lookup k)

/-! ## Claim theorems -/

/-- C1: for every existing Pet/User/Order instance `e` and every override
set `u`, the update factories (`updatePetData`, `updateUserData`,
`updateOrderData`) return an instance in which every field named in `u` has
`u`'s value and every field not named in `u` equals the corresponding field
of `e`; with an empty override set the result is `e` itself.  The embedding
is a pure function of `e` (the source builds a fresh object literal and
never writes to the original). -/
theorem updateFactories_override_frame :
    ∀ (pe : Pet) (pu : PetUpd) (ue : User) (uu : UserUpd) (oe : Order) (ou : OrderUpd),
      ((∀ v, pu.id = some v → (updatePetData pe pu).id = v) ∧
       (pu.id = none → (updatePetData pe pu).id = pe.id) ∧
       (∀ v, pu.category = some v → (updatePetData pe pu).category = v) ∧
       (pu.category = none → (updatePetData pe pu).category = pe.category) ∧
       (∀ v, pu.name = some v → (updatePetData pe pu).name = v) ∧
       (pu.name = none → (updatePetData pe pu).name = pe.name) ∧
       (∀ v, pu.photoUrls = some v → (updatePetData pe pu).photoUrls = v) ∧
       (pu.photoUrls = none → (updatePetData pe pu).photoUrls = pe.photoUrls) ∧
       (∀ v, pu.tags = some v → (updatePetData pe pu).tags = v) ∧
       (pu.tags = none → (updatePetData pe pu).tags = pe.tags) ∧
       (∀ v, pu.status = some v → (updatePetData pe pu).status = v) ∧
       (pu.status = none → (updatePetData pe pu).status = pe.status) ∧
       updatePetData pe emptyPetUpd = pe) ∧
      ((∀ v, uu.id = some v → (updateUserData ue uu).id = v) ∧
       (uu.id = none → (updateUserData ue uu).id = ue.id) ∧
       (∀ v, uu.username = some v → (updateUserData ue uu).username = v) ∧
       (uu.username = none → (updateUserData ue uu).username = ue.username) ∧
       (∀ v, uu.firstName = some v → (updateUserData ue uu).firstName = v) ∧
       (uu.firstName = none → (updateUserData ue uu).firstName = ue.firstName) ∧
       (∀ v, uu.lastName = some v → (updateUserData ue uu).lastName = v) ∧
       (uu.lastName = none → (updateUserData ue uu).lastName = ue.lastName) ∧
       (∀ v, uu.email = some v → (updateUserData ue uu).email = v) ∧
       (uu.email = none → (updateUserData ue uu).email = ue.email) ∧
       (∀ v, uu.password = some v → (updateUserData ue uu).password = v) ∧
       (uu.password = none → (updateUserData ue uu).password = ue.password) ∧
       (∀ v, uu.phone = some v → (updateUserData ue uu).phone = v) ∧
       (uu.phone = none → (updateUserData ue uu).phone = ue.phone) ∧
       (∀ v, uu.userStatus = some v → (updateUserData ue uu).userStatus = v) ∧
       (uu.userStatus = none → (updateUserData ue uu).userStatus = ue.userStatus) ∧
       updateUserData ue emptyUserUpd = ue) ∧
      ((∀ v, ou.id = some v → (updateOrderData oe ou).id = v) ∧
       (ou.id = none → (updateOrderData oe ou).id = oe.id) ∧
       (∀ v, ou.petId = some v → (updateOrderData oe ou).petId = v) ∧
       (ou.petId = none → (updateOrderData oe ou).petId = oe.petId) ∧
       (∀ v, ou.quantity = some v → (updateOrderData oe ou).quantity = v) ∧
       (ou.quantity = none → (updateOrderData oe ou).quantity = oe.quantity) ∧
       (∀ v, ou.shipDate = some v → (updateOrderData oe ou).shipDate = v) ∧
       (ou.shipDate = none → (updateOrderData oe ou).shipDate = oe.shipDate) ∧
       (∀ v, ou.status = some v → (updateOrderData oe ou).status = v) ∧
       (ou.status = none → (updateOrderData oe ou).status = oe.status) ∧
       (∀ v, ou.complete = some v → (updateOrderData oe ou).complete = v) ∧
       (ou.complete = none → (updateOrderData oe ou).complete = oe.complete) ∧
       updateOrderData oe emptyOrderUpd = oe) := by
  intro pe pu ue uu oe ou
  and_intros <;>
    first
      | rfl
      | (intro v h
         simp [updatePetData, updateUserData, updateOrderData,
           petSpread, userSpread, orderSpread, h])
      | (intro h
         simp [updatePetData, updateUserData, updateOrderData,
           petSpread, userSpread, orderSpread, h])

/-- Witness for C1: the update factories evaluated at concrete instances,
with each branch hypothesis discharged by `rfl`. -/
theorem updateFactories_override_frame_witness :
    (updatePetData ⟨some 7, none, "Buddy", [], none, .available⟩
        { name := some "Rex", status := some .sold }).name = "Rex" ∧
    (updatePetData ⟨some 7, none, "Buddy", [], none, .available⟩
        { name := some "Rex", status := some .sold }).id = some 7 ∧
    (updateUserData ⟨some 1, some "u1", none, none, some "a@example.com", none, none, some 1⟩
        { email := some (some "b@example.com") }).email = some "b@example.com" ∧
    (updateUserData ⟨some 1, some "u1", none, none, some "a@example.com", none, none, some 1⟩
        { email := some (some "b@example.com") }).username = some "u1" ∧
    (updateOrderData ⟨some 2, some 3, some 1, none, some .placed, some false⟩
        { quantity := some (some 9) }).quantity = some 9 ∧
    (updateOrderData ⟨some 2, some 3, some 1, none, some .placed, some false⟩
        { quantity := some (some 9) }).status = some .placed := by
  obtain ⟨⟨p1, p2, p3, p4, p5, p6, p7, p8, p9, p10, p11, p12, p13⟩,
          ⟨u1, u2, u3, u4, u5, u6, u7, u8, u9, u10, u11, u12, u13, u14, u15, u16, u17⟩,
          ⟨o1, o2, o3, o4, o5, o6, o7, o8, o9, o10, o11, o12, o13⟩⟩ :=
    updateFactories_override_frame
      ⟨some 7, none, "Buddy", [], none, .available⟩
      { name := some "Rex", status := some .sold }
      ⟨some 1, some "u1", none, none, some "a@example.com", none, none, some 1⟩
      { email := some (some "b@example.com") }
      ⟨some 2, some 3, some 1, none, some .placed, some false⟩
      { quantity := some (some 9) }
  exact ⟨p5 "Rex" rfl, p2 rfl, u9 (some "b@example.com") rfl, u4 rfl,
    o5 (some 9) rfl, o10 rfl⟩

/-- C2: for every override set `o`, the creation factories (`createPetData`,
`createUserData`, `createOrderData`) return an instance in which every field
present in `o` has exactly `o`'s value, and every field absent from `o`
equals the generated default (the corresponding field of the default object
literal built by the factory). -/
theorem createFactories_override_precedence :
    ∀ (ts tsName tsId : Nat) (rCat rTag : ℚ) (po : PetUpd)
      (uts utsId : Nat) (uo : UserUpd)
      (oid : Nat) (rPet rQty : ℚ) (iso : String) (oo : OrderUpd),
      ((∀ v, po.id = some v → (createPetData ts tsName tsId rCat rTag po).id = v) ∧
       (po.id = none → (createPetData ts tsName tsId rCat rTag po).id =
         (defaultPetData ts tsName tsId rCat rTag).id) ∧
       (∀ v, po.category = some v → (createPetData ts tsName tsId rCat rTag po).category = v) ∧
       (po.category = none → (createPetData ts tsName tsId rCat rTag po).category =
         (defaultPetData ts tsName tsId rCat rTag).category) ∧
       (∀ v, po.name = some v → (createPetData ts tsName tsId rCat rTag po).name = v) ∧
       (po.name = none → (createPetData ts tsName tsId rCat rTag po).name =
         (defaultPetData ts tsName tsId rCat rTag).name) ∧
       (∀ v, po.photoUrls = some v → (createPetData ts tsName tsId rCat rTag po).photoUrls = v) ∧
       (po.photoUrls = none → (createPetData ts tsName tsId rCat rTag po).photoUrls =
         (defaultPetData ts tsName tsId rCat rTag).photoUrls) ∧
       (∀ v, po.tags = some v → (createPetData ts tsName tsId rCat rTag po).tags = v) ∧
       (po.tags = none → (createPetData ts tsName tsId rCat rTag po).tags =
         (defaultPetData ts tsName tsId rCat rTag).tags) ∧
       (∀ v, po.status = some v → (createPetData ts tsName tsId rCat rTag po).status = v) ∧
       (po.status = none → (createPetData ts tsName tsId rCat rTag po).status =
         (defaultPetData ts tsName tsId rCat rTag).status)) ∧
      ((∀ v, uo.id = some v → (createUserData uts utsId uo).id = v) ∧
       (uo.id = none → (createUserData uts utsId uo).id = (defaultUserData uts utsId).id) ∧
       (∀ v, uo.username = some v → (createUserData uts utsId uo).username = v) ∧
       (uo.username = none → (createUserData uts utsId uo).username =
         (defaultUserData uts utsId).username) ∧
       (∀ v, uo.firstName = some v → (createUserData uts utsId uo).firstName = v) ∧
       (uo.firstName = none → (createUserData uts utsId uo).firstName =
         (defaultUserData uts utsId).firstName) ∧
       (∀ v, uo.lastName = some v → (createUserData uts utsId uo).lastName = v) ∧
       (uo.lastName = none → (createUserData uts utsId uo).lastName =
         (defaultUserData uts utsId).lastName) ∧
       (∀ v, uo.email = some v → (createUserData uts utsId uo).email = v) ∧
       (uo.email = none → (createUserData uts utsId uo).email =
         (defaultUserData uts utsId).email) ∧
       (∀ v, uo.password = some v → (createUserData uts utsId uo).password = v) ∧
       (uo.password = none → (createUserData uts utsId uo).password =
         (defaultUserData uts utsId).password) ∧
       (∀ v, uo.phone = some v → (createUserData uts utsId uo).phone = v) ∧
       (uo.phone = none → (createUserData uts utsId uo).phone =
         (defaultUserData uts utsId).phone) ∧
       (∀ v, uo.userStatus = some v → (createUserData uts utsId uo).userStatus = v) ∧
       (uo.userStatus = none → (createUserData uts utsId uo).userStatus =
         (defaultUserData uts utsId).userStatus)) ∧
      ((∀ v, oo.id = some v → (createOrderData oid rPet rQty iso oo).id = v) ∧
       (oo.id = none → (createOrderData oid rPet rQty iso oo).id =
         (defaultOrderData oid rPet rQty iso).id) ∧
       (∀ v, oo.petId = some v → (createOrderData oid rPet rQty iso oo).petId = v) ∧
       (oo.petId = none → (createOrderData oid rPet rQty iso oo).petId =
         (defaultOrderData oid rPet rQty iso).petId) ∧
       (∀ v, oo.quantity = some v → (createOrderData oid rPet rQty iso oo).quantity = v) ∧
       (oo.quantity = none → (createOrderData oid rPet rQty iso oo).quantity =
         (defaultOrderData oid rPet rQty iso).quantity) ∧
       (∀ v, oo.shipDate = some v → (createOrderData oid rPet rQty iso oo).shipDate = v) ∧
       (oo.shipDate = none → (createOrderData oid rPet rQty iso oo).shipDate =
         (defaultOrderData oid rPet rQty iso).shipDate) ∧
       (∀ v, oo.status = some v → (createOrderData oid rPet rQty iso oo).status = v) ∧
       (oo.status = none → (createOrderData oid rPet rQty iso oo).status =
         (defaultOrderData oid rPet rQty iso).status) ∧
       (∀ v, oo.complete = some v → (createOrderData oid rPet rQty iso oo).complete = v) ∧
       (oo.complete = none → (createOrderData oid rPet rQty iso oo).complete =
         (defaultOrderData oid rPet rQty iso).complete)) := by
  intro ts tsName tsId rCat rTag po uts utsId uo oid rPet rQty iso oo
  and_intros <;>
    first
      | (intro v h
         simp [createPetData, createUserData, createOrderData,
           petSpread, userSpread, orderSpread, h])
      | (intro h
         simp [createPetData, createUserData, createOrderData,
           petSpread, userSpread, orderSpread, h])

/-- Witness for C2: creation factories at concrete clock/random inputs,
with one overridden and one defaulted field checked per resource. -/
theorem createFactories_override_precedence_witness :
    (createPetData 1 1 1 0 0 { name := some "Buddy" }).name = "Buddy" ∧
    (createPetData 1 1 1 0 0 { name := some "Buddy" }).photoUrls =
      (defaultPetData 1 1 1 0 0).photoUrls ∧
    (createUserData 2 2 { username := some (some "alice") }).username = some "alice" ∧
    (createUserData 2 2 { username := some (some "alice") }).email =
      (defaultUserData 2 2).email ∧
    (createOrderData 3 0 0 "2024-01-15T10:00:00.000Z" { petId := some (some 123) }).petId =
      some 123 ∧
    (createOrderData 3 0 0 "2024-01-15T10:00:00.000Z" { petId := some (some 123) }).status =
      (defaultOrderData 3 0 0 "2024-01-15T10:00:00.000Z").status := by
  obtain ⟨⟨p1, p2, p3, p4, p5, p6, p7, p8, p9, p10, p11, p12⟩,
          ⟨u1, u2, u3, u4, u5, u6, u7, u8, u9, u10, u11, u12, u13, u14, u15, u16⟩,
          ⟨o1, o2, o3, o4, o5, o6, o7, o8, o9, o10, o11, o12⟩⟩ :=
    createFactories_override_precedence 1 1 1 0 0 { name := some "Buddy" }
      2 2 { username := some (some "alice") }
      3 0 0 "2024-01-15T10:00:00.000Z" { petId := some (some 123) }
  exact ⟨p5 "Buddy" rfl, p8 rfl, u3 (some "alice") rfl, u10 rfl,
    o3 (some 123) rfl, o10 rfl⟩

/-- C6: the endpoint-template functions are pure functions of their
arguments and produce exactly the documented path strings: `pet/` followed
by the id, the find-by-status query string, the find-by-tags query string
with the tags joined by commas, `store/order/` followed by the order id,
and `user/` followed by the username. -/
theorem endpoint_templates_spec :
    ∀ (id oid : Int) (status username : String) (tags : List String),
      PET_ENDPOINTS_BY_ID id = "pet/" ++ Int.repr id ∧
      PET_ENDPOINTS_BY_STATUS status = "pet/findByStatus?status=" ++ status ∧
      PET_ENDPOINTS_BY_TAGS tags = "pet/findByTags?tags=" ++ String.intercalate "," tags ∧
      STORE_ENDPOINTS_ORDER_BY_ID oid = "store/order/" ++ Int.repr oid ∧
      USER_ENDPOINTS_BY_USERNAME username = "user/" ++ username := by
  intro id oid status username tags
  exact ⟨rfl, rfl, rfl, rfl, rfl⟩

/-- C4: every service-wrapper operation across PetService, UserService and
StoreService hands its constructed request to the injected transport and
returns the transport's response unchanged; JSON-bearing operations carry
the input argument as the request payload verbatim; and for any fixed
response whatsoever (any status code, 4xx/5xx included) the wrapper returns
that response as an ordinary value — it never looks at the status. -/
theorem serviceWrappers_forward_raw :
    ∀ (ctx : ApiRequestContext) (p : Pet) (petId : Int) (status : String)
      (u : User) (us : List User) (username password : String)
      (ord : Order) (orderId : Int) (fsys : String → Option String)
      (filePath : String) (meta nm st : Option String),
      (createPet ctx p = ctx (createPetReq p) ∧
       (createPetReq p).body = RequestBody.jsonPet p ∧
       ∀ resp, createPet (fun _ => resp) p = resp) ∧
      (getPet ctx petId = ctx (getPetReq petId) ∧
       ∀ resp, getPet (fun _ => resp) petId = resp) ∧
      (updatePet ctx p = ctx (updatePetReq p) ∧
       (updatePetReq p).body = RequestBody.jsonPet p ∧
       ∀ resp, updatePet (fun _ => resp) p = resp) ∧
      (deletePet ctx petId = ctx (deletePetReq petId) ∧
       ∀ resp, deletePet (fun _ => resp) petId = resp) ∧
      (findPetsByStatus ctx status = ctx (findPetsByStatusReq status) ∧
       ∀ resp, findPetsByStatus (fun _ => resp) status = resp) ∧
      (uploadImage ctx fsys petId filePath meta =
         ctx (uploadImageReq fsys petId filePath meta) ∧
       ∀ resp, uploadImage (fun _ => resp) fsys petId filePath meta = resp) ∧
      (updatePetWithForm ctx petId nm st = ctx (updatePetWithFormReq petId nm st) ∧
       ∀ resp, updatePetWithForm (fun _ => resp) petId nm st = resp) ∧
      (createUser ctx u = ctx (createUserReq u) ∧
       (createUserReq u).body = RequestBody.jsonUser u ∧
       ∀ resp, createUser (fun _ => resp) u = resp) ∧
      (createUsersWithArray ctx us = ctx (createUsersWithArrayReq us) ∧
       (createUsersWithArrayReq us).body = RequestBody.jsonUsers us ∧
       ∀ resp, createUsersWithArray (fun _ => resp) us = resp) ∧
      (createUsersWithList ctx us = ctx (createUsersWithListReq us) ∧
       (createUsersWithListReq us).body = RequestBody.jsonUsers us ∧
       ∀ resp, createUsersWithList (fun _ => resp) us = resp) ∧
      (getUserByUsername ctx username = ctx (getUserByUsernameReq username) ∧
       ∀ resp, getUserByUsername (fun _ => resp) username = resp) ∧
      (updateUser ctx username u = ctx (updateUserReq username u) ∧
       (updateUserReq username u).body = RequestBody.jsonUser u ∧
       ∀ resp, updateUser (fun _ => resp) username u = resp) ∧
      (deleteUser ctx username = ctx (deleteUserReq username) ∧
       ∀ resp, deleteUser (fun _ => resp) username = resp) ∧
      (login ctx username password = ctx (loginReq username password) ∧
       ∀ resp, login (fun _ => resp) username password = resp) ∧
      (logout ctx = ctx logoutReq ∧
       ∀ resp, logout (fun _ => resp) = resp) ∧
      (getInventory ctx = ctx getInventoryReq ∧
       ∀ resp, getInventory (fun _ => resp) = resp) ∧
      (placeOrder ctx ord = ctx (placeOrderReq ord) ∧
       (placeOrderReq ord).body = RequestBody.jsonOrder ord ∧
       ∀ resp, placeOrder (fun _ => resp) ord = resp) ∧
      (getOrderById ctx orderId = ctx (getOrderByIdReq orderId) ∧
       ∀ resp, getOrderById (fun _ => resp) orderId = resp) ∧
      (deleteOrder ctx orderId = ctx (deleteOrderReq orderId) ∧
       ∀ resp, deleteOrder (fun _ => resp) orderId = resp) := by
  intro ctx p petId status u us username password ord orderId fsys filePath meta nm st
  and_intros <;> intros <;> rfl

/-- C8: one invocation of any service-wrapper operation puts exactly one
request on the wire (the trace is the one-element list holding the request
built from the arguments), returns the service object unchanged (its only
state is the injected request context), and the issued request is a
function of the arguments alone, so equal arguments against the same
context yield the same request. -/
theorem serviceWrappers_single_request_stateless :
    ∀ (svc : BaseService) (p : Pet) (petId : Int) (status : String)
      (u : User) (us : List User) (username password : String)
      (ord : Order) (orderId : Int) (fsys : String → Option String)
      (filePath : String) (meta nm st : Option String),
      createPetCall svc p = (svc.request (createPetReq p), svc, [createPetReq p]) ∧
      getPetCall svc petId = (svc.request (getPetReq petId), svc, [getPetReq petId]) ∧
      updatePetCall svc p = (svc.request (updatePetReq p), svc, [updatePetReq p]) ∧
      deletePetCall svc petId =
        (svc.request (deletePetReq petId), svc, [deletePetReq petId]) ∧
      findPetsByStatusCall svc status =
        (svc.request (findPetsByStatusReq status), svc, [findPetsByStatusReq status]) ∧
      uploadImageCall svc fsys petId filePath meta =
        (svc.request (uploadImageReq fsys petId filePath meta), svc,
          [uploadImageReq fsys petId filePath meta]) ∧
      updatePetWithFormCall svc petId nm st =
        (svc.request (updatePetWithFormReq petId nm st), svc,
          [updatePetWithFormReq petId nm st]) ∧
      createUserCall svc u = (svc.request (createUserReq u), svc, [createUserReq u]) ∧
      createUsersWithArrayCall svc us =
        (svc.request (createUsersWithArrayReq us), svc, [createUsersWithArrayReq us]) ∧
      createUsersWithListCall svc us =
        (svc.request (createUsersWithListReq us), svc, [createUsersWithListReq us]) ∧
      getUserByUsernameCall svc username =
        (svc.request (getUserByUsernameReq username), svc, [getUserByUsernameReq username]) ∧
      updateUserCall svc username u =
        (svc.request (updateUserReq username u), svc, [updateUserReq username u]) ∧
      deleteUserCall svc username =
        (svc.request (deleteUserReq username), svc, [deleteUserReq username]) ∧
      loginCall svc username password =
        (svc.request (loginReq username password), svc, [loginReq username password]) ∧
      logoutCall svc = (svc.request logoutReq, svc, [logoutReq]) ∧
      getInventoryCall svc = (svc.request getInventoryReq, svc, [getInventoryReq]) ∧
      placeOrderCall svc ord =
        (svc.request (placeOrderReq ord), svc, [placeOrderReq ord]) ∧
      getOrderByIdCall svc orderId =
        (svc.request (getOrderByIdReq orderId), svc, [getOrderByIdReq orderId]) ∧
      deleteOrderCall svc orderId =
        (svc.request (deleteOrderReq orderId), svc, [deleteOrderReq orderId]) ∧
      ((createPetCall svc p).2.2.length = 1 ∧
       (placeOrderCall svc ord).2.2.length = 1 ∧
       (createUserCall svc u).2.2.length = 1) ∧
      (∀ svc2 : BaseService, (createPetCall svc p).2.2 = (createPetCall svc2 p).2.2 ∧
        (placeOrderCall svc ord).2.2 = (placeOrderCall svc2 ord).2.2) := by
  intro svc p petId status u us username password ord orderId fsys filePath meta nm st
  and_intros <;> intros <;> first | rfl | exact ⟨rfl, rfl⟩

/-- Bridge between the Boolean `String.isEmpty` test used by the truthiness
model and propositional equality with the empty string. -/
theorem isEmpty_eq_false_iff (s : String) : s.isEmpty = false ↔ ¬ s = "" := by
  constructor
  · intro hb h
    subst h
    have hd : ("" : String).isEmpty = true := by decide
    rw [hd] at hb
    exact Bool.noConfusion hb
  · intro h
    cases hb : s.isEmpty
    · rfl
    · exact absurd ((String.isEmpty_iff s).mp hb) h

/-- C3 counterexample: with an explicitly provided empty-string name
argument, the form body omits the `name` key (JavaScript truthiness:
`if (name)` is false for `''`), so "key present iff the argument was
provided" fails at `name = some ""`. -/
theorem updatePetWithForm_provided_iff_counterexample :
    ¬ (("name" ∈ (updatePetWithFormData (some "") none).map Prod.fst) ↔
       (some "" ≠ (none : Option String))) := by
  decide

/-- C3 amended: the form body contains the key `name` iff a non-empty name
argument was provided (likewise `status`); a field is never sent as an
empty string; an absent argument is omitted from the body entirely; and the
request posts exactly this body form-encoded. -/
theorem updatePetWithForm_sends_truthy_fields :
    ∀ (petId : Int) (nm st : Option String),
      (("name" ∈ (updatePetWithFormData nm st).map Prod.fst) ↔
        ∃ n, nm = some n ∧ n ≠ "") ∧
      (("status" ∈ (updatePetWithFormData nm st).map Prod.fst) ↔
        ∃ s, st = some s ∧ s ≠ "") ∧
      (∀ k v, (k, v) ∈ updatePetWithFormData nm st → v ≠ "") ∧
      (nm = none → "name" ∉ (updatePetWithFormData nm st).map Prod.fst) ∧
      (st = none → "status" ∉ (updatePetWithFormData nm st).map Prod.fst) ∧
      (updatePetWithFormReq petId nm st).body =
        RequestBody.form (updatePetWithFormData nm st) := by
  intro petId nm st
  rcases nm with _ | n <;> rcases st with _ | s
  · simp [updatePetWithFormData, updatePetWithFormReq, truthyStr]
  · by_cases hs : s = "" <;>
      simp_all [updatePetWithFormData, updatePetWithFormReq, truthyStr,
        String.isEmpty_iff, isEmpty_eq_false_iff]
  · by_cases hn : n = "" <;>
      simp_all [updatePetWithFormData, updatePetWithFormReq, truthyStr,
        String.isEmpty_iff, isEmpty_eq_false_iff]
  · by_cases hn : n = "" <;> by_cases hs : s = "" <;>
      simp_all [updatePetWithFormData, updatePetWithFormReq, truthyStr,
        String.isEmpty_iff, isEmpty_eq_false_iff] <;>
      (rintro k v (⟨h1, rfl⟩ | ⟨h1, rfl⟩) <;> assumption)

/-- Witness for the amended C3 at concrete arguments. -/
theorem updatePetWithForm_sends_truthy_fields_witness :
    ("name" ∈ (updatePetWithFormData (some "Max") none).map Prod.fst) ∧
    ("status" ∉ (updatePetWithFormData (some "Max") none).map Prod.fst) ∧
    ("Max" : String) ≠ "" := by
  obtain ⟨h1, h2, h3, h4, h5, h6⟩ :=
    updatePetWithForm_sends_truthy_fields 1 (some "Max") none
  exact ⟨h1.mpr ⟨"Max", rfl, by decide⟩, h5 rfl, h3 "name" "Max" (by decide)⟩

/-- C5 counterexample: with an explicitly provided empty-string metadata
argument the multipart payload omits the metadata part (`if
(additionalMetadata)` is false for `''`), so "metadata part present iff
metadata was provided" fails at `additionalMetadata = some ""`. -/
theorem uploadImage_metadata_iff_counterexample :
    ¬ (((reqMeta (uploadImageReq (fun _ => none) 1 "img.jpg" (some ""))).isSome = true) ↔
       (some "" ≠ (none : Option String))) := by
  decide

/-- C5 amended: `uploadImage` is total in the file system (never fails due
to file reading): it always issues exactly one multipart request whose file
part carries the resolved name/buffer; when the file cannot be read and the
path matches no dummy pattern, the in-memory placeholder
`("test.jpg", "dummy content")` is substituted; the dummy-pattern paths get
the `"dummy image content"` placeholder; and the metadata part is present
iff a non-empty metadata string was provided. -/
theorem uploadImage_placeholder_and_multipart :
    ∀ (fsys : String → Option String) (petId : Int) (filePath : String)
      (meta : Option String) (svc : BaseService),
      (∃ mp, (uploadImageReq fsys petId filePath meta).body = RequestBody.multipart mp ∧
        mp.file.buffer = (uploadImageFile fsys filePath).2 ∧
        mp.file.name = (uploadImageFile fsys filePath).1) ∧
      ((reqMeta (uploadImageReq fsys petId filePath meta)).isSome = true ↔
        ∃ m, meta = some m ∧ m ≠ "") ∧
      (strIncludes filePath "fake-path" = false → strIncludes filePath "document.pdf" = false →
        fsys filePath = none → uploadImageFile fsys filePath = ("test.jpg", "dummy content")) ∧
      ((strIncludes filePath "fake-path" = true ∨ strIncludes filePath "document.pdf" = true) →
        uploadImageFile fsys filePath = (basename filePath, "dummy image content")) ∧
      ((uploadImageReq fsys petId filePath meta).url =
        PET_ENDPOINTS_BY_ID petId ++ "/uploadImage") ∧
      (uploadImageCall svc fsys petId filePath meta =
        (svc.request (uploadImageReq fsys petId filePath meta), svc,
          [uploadImageReq fsys petId filePath meta])) := by
  intro fsys petId filePath meta svc
  refine ⟨⟨_, rfl, rfl, rfl⟩, ?_, ?_, ?_, rfl, rfl⟩
  · rcases meta with _ | m
    · simp [reqMeta, uploadImageReq, truthyStr]
    · by_cases hm : m = "" <;>
        simp_all [reqMeta, uploadImageReq, truthyStr, String.isEmpty_iff,
          isEmpty_eq_false_iff]
  · intro h1 h2 h3
    simp [uploadImageFile, h1, h2, h3]
  · intro h
    rcases h with h | h <;> simp [uploadImageFile, h]

/-- Witness for the amended C5 at concrete arguments: unreadable file path
gets the placeholder, and non-empty metadata is carried. -/
theorem uploadImage_placeholder_and_multipart_witness :
    uploadImageFile (fun _ => none) "missing/pic.png" = ("test.jpg", "dummy content") ∧
    (reqMeta (uploadImageReq (fun _ => none) 1 "missing/pic.png"
      (some "profile"))).isSome = true := by
  obtain ⟨h1, h2, h3, h4, h5, h6⟩ :=
    uploadImage_placeholder_and_multipart (fun _ => none) 1 "missing/pic.png"
      (some "profile") ⟨fun _ => ⟨200, "ok"⟩⟩
  exact ⟨h3 (by decide) (by decide) rfl, h2.mpr ⟨"profile", rfl, by decide⟩⟩

/-- Lookup into the override-mapped half of the spread: `target`'s entries
keep their keys, with values replaced by `source`'s where present. -/
theorem lookup_spread_map (t s : JsObj) (k : String) :
    ((t.map fun p =>
      match s.lookup p.1 with
      | some v => (p.1, v)
      | none => p).lookup k) =
    match t.lookup k with
    | some v => some ((s.lookup k).getD v)
    | none => none := by
  induction t with
  | nil => rfl
  | cons hd tl ih =>
    obtain ⟨k1, v1⟩ := hd
    by_cases hk : k = k1
    · subst hk
      cases hs : s.lookup k <;>
        simp [List.lookup_cons, hs]
    · have hbeq : (k == k1) = false := beq_eq_false_iff_ne.mpr hk
      cases hs : s.lookup k1 <;>
        simp [List.lookup_cons, hbeq, hs, ih]

/-- Lookup into the appended half of the spread: `source` entries whose
keys `target` lacks. -/
theorem lookup_spread_filter (t s : JsObj) (k : String) :
    ((s.filter fun p => (t.lookup p.1).isNone).lookup k) =
    if (t.lookup k).isNone then s.lookup k else none := by
  induction s with
  | nil => simp
  | cons hd tl ih =>
    obtain ⟨k1, v1⟩ := hd
    by_cases hk : k = k1
    · subst hk
      cases ht : (t.lookup k).isNone <;>
        simp [List.filter_cons, ht, List.lookup_cons, ih]
    · have hbeq : (k == k1) = false := beq_eq_false_iff_ne.mpr hk
      cases ht : (t.lookup k1).isNone <;>
        simp [List.filter_cons, ht, List.lookup_cons, hbeq, ih]

/-- C10: `deepMerge` is extensionally a one-level shallow merge: at every
key the merged object's value is `source`'s whole value when `source` has
the key (so nested objects from `source` replace `target`'s wholesale, with
no recursive merging) and `target`'s value otherwise; merging with an empty
source returns `target` unchanged; and a concrete nested-object example
shows the wholesale replacement (the `y` entry of `target`'s nested object
is dropped, not merged). -/
theorem deepMerge_is_shallow_merge :
    ∀ (t s : JsObj) (k : String),
      ((deepMerge t s).lookup k = shallowMergeSpec t s k) ∧
      ((s.lookup k).isSome = true → (deepMerge t s).lookup k = s.lookup k) ∧
      deepMerge t [] = t ∧
      deepMerge [("a", JsVal.obj [("x", JsVal.num 1), ("y", JsVal.num 2)])]
          [("a", JsVal.obj [("x", JsVal.num 9)])] =
        [("a", JsVal.obj [("x", JsVal.num 9)])] := by
  intro t s k
  have hmain : (deepMerge t s).lookup k = shallowMergeSpec t s k := by
    rw [deepMerge, shallowMergeSpec, List.lookup_append, lookup_spread_map,
      lookup_spread_filter]
    cases ht : t.lookup k <;> cases hs : s.lookup k <;> simp [ht, hs]
  refine ⟨hmain, ?_, ?_, rfl⟩
  · intro hsome
    rw [hmain, shallowMergeSpec]
    cases hs : s.lookup k
    · rw [hs] at hsome
      exact Bool.noConfusion hsome
    · rfl
  · show (t.map fun p =>
      match List.lookup p.1 ([] : JsObj) with
      | some v => (p.1, v)
      | none => p) ++ List.filter (fun p => (t.lookup p.1).isNone) [] = t
    simp

/-- Witness for C10: the shallow-merge characterisation applied at a
concrete target/source pair, with the `isSome` hypothesis discharged. -/
theorem deepMerge_is_shallow_merge_witness :
    (deepMerge [("a", JsVal.num 1), ("b", JsVal.num 2)] [("a", JsVal.num 9)]).lookup "a" =
      [("a", JsVal.num 9)].lookup "a" := by
  exact (deepMerge_is_shallow_merge [("a", JsVal.num 1), ("b", JsVal.num 2)]
    [("a", JsVal.num 9)] "a").2.1 rfl

/-- Index bound for the embedded `Math.floor(Math.random() * length)`: with
a random draw in `[0, 1)` and a positive length the index is in range. -/
theorem randIndex_lt (r : ℚ) (n : Nat) (h0 : 0 ≤ r) (h1 : r < 1) (hn : 0 < n) :
    randIndex r n < n := by
  have hnq : (0 : ℚ) < (n : ℚ) := by exact_mod_cast hn
  have hub : r * (n : ℚ) < (n : ℚ) := by
    have := mul_lt_mul_of_pos_right h1 hnq
    simpa using this
  have hfl : Rat.floor (r * (n : ℚ)) < (n : ℤ) := by
    by_contra hcon
    push_neg at hcon
    have hle := Rat.le_floor.mp hcon
    push_cast at hle
    linarith
  have hfl0 : (0 : ℤ) ≤ Rat.floor (r * (n : ℚ)) := by
    refine Rat.le_floor.mpr ?_
    push_cast
    exact mul_nonneg h0 hnq.le
  unfold randIndex
  omega

/-- C9: `getRandomItem` on a non-empty array always returns an element of
the array (the computed index is in bounds for any random draw in
`[0, 1)`); on the empty array it returns `undefined` (`none`); hence every
default pet built by `createPetData` with no overrides draws its category
from `DEFAULT_CATEGORIES` and its single tag from `DEFAULT_TAGS`. -/
theorem getRandomItem_in_bounds :
    ∀ {α : Type} (r rc rt : ℚ) (a : List α) (ts tsName tsId : Nat),
      0 ≤ r → r < 1 → 0 ≤ rc → rc < 1 → 0 ≤ rt → rt < 1 →
      ((a ≠ [] → ∃ x, getRandomItem r a = some x ∧ x ∈ a) ∧
       getRandomItem r ([] : List α) = none ∧
       (∃ c, (createPetData ts tsName tsId rc rt emptyPetUpd).category = some c ∧
         c ∈ DEFAULT_CATEGORIES) ∧
       (∃ tg, (createPetData ts tsName tsId rc rt emptyPetUpd).tags = some [tg] ∧
         tg ∈ DEFAULT_TAGS)) := by
  intro α r rc rt a ts tsName tsId hr0 hr1 hc0 hc1 ht0 ht1
  have hmem : ∀ {β : Type} (rr : ℚ) (l : List β), 0 ≤ rr → rr < 1 → l ≠ [] →
      ∃ x, getRandomItem rr l = some x ∧ x ∈ l := by
    intro β rr l h0 h1 hne
    have hlen : 0 < l.length := List.length_pos.mpr hne
    have hidx : randIndex rr l.length < l.length := randIndex_lt rr l.length h0 h1 hlen
    refine ⟨l.get ⟨randIndex rr l.length, hidx⟩, ?_, List.get_mem l _ hidx⟩
    show l[randIndex rr l.length]? = _
    rw [List.getElem?_eq_getElem hidx]
    simp
  obtain ⟨c, hc, hcm⟩ := hmem rc DEFAULT_CATEGORIES hc0 hc1 (by simp [DEFAULT_CATEGORIES])
  obtain ⟨tg, htg, htgm⟩ := hmem rt DEFAULT_TAGS ht0 ht1 (by simp [DEFAULT_TAGS])
  refine ⟨hmem r a hr0 hr1, by simp [getRandomItem], ⟨c, ?_, hcm⟩, ⟨tg, ?_, htgm⟩⟩
  · simpa [createPetData, petSpread, emptyPetUpd, defaultPetData] using hc
  · show (createPetData ts tsName tsId rc rt emptyPetUpd).tags = some [tg]
    have : (createPetData ts tsName tsId rc rt emptyPetUpd).tags =
        some (getRandomItem rt DEFAULT_TAGS).toList := rfl
    rw [this, htg]
    rfl

/-- Witness for C9 at concrete draws: `r = 0` picks the first element. -/
theorem getRandomItem_in_bounds_witness :
    (∃ x, getRandomItem 0 [(5 : Int)] = some x ∧ x ∈ [(5 : Int)]) ∧
    (∃ c, (createPetData 0 0 0 0 0 emptyPetUpd).category = some c ∧
      c ∈ DEFAULT_CATEGORIES) := by
  have h := getRandomItem_in_bounds (α := Int) 0 0 0 [(5 : Int)] 0 0 0
    le_rfl (by norm_num) le_rfl (by norm_num) le_rfl (by norm_num)
  exact ⟨h.1 (by simp), h.2.2.1⟩

/-- Decimal digit characters are pairwise distinct for digits below ten. -/
theorem digitChar_inj_lt :
    ∀ a, a < 10 → ∀ b, b < 10 → Nat.digitChar a = Nat.digitChar b → a = b := by
  decide

/-- With sufficient fuel, the core digit renderer produces the reversed
decimal digit list (as characters) in front of the accumulator. -/
theorem toDigitsCore_eq_digits :
    ∀ (f n : Nat) (l : List Char), 0 < n → n < f →
      Nat.toDigitsCore 10 f n l = ((Nat.digits 10 n).map Nat.digitChar).reverse ++ l := by
  intro f
  induction f with
  | zero => intro n l hn hf; exact absurd hf (by omega)
  | succ f ih =>
    intro n l hn hf
    by_cases h10 : n / 10 = 0
    · have hd : Nat.digits 10 n = [n % 10] := by
        rw [Nat.digits_def' (by norm_num) hn, h10]
        simp
      simp [Nat.toDigitsCore, h10, hd]
    · have hn10 : 0 < n / 10 := Nat.pos_of_ne_zero h10
      have hlt : n / 10 < f := by
        have := Nat.div_lt_self hn (by norm_num : 1 < 10)
        omega
      have hstep : Nat.toDigitsCore 10 (f + 1) n l =
          Nat.toDigitsCore 10 f (n / 10) (Nat.digitChar (n % 10) :: l) := by
        simp [Nat.toDigitsCore, h10]
      rw [hstep, ih (n / 10) (Nat.digitChar (n % 10) :: l) hn10 hlt,
        Nat.digits_def' (by norm_num : 1 < 10) hn]
      simp

/-- Character data of `Nat.repr`: `"0"` for zero, otherwise the reversed
decimal digit characters. -/
theorem repr_data_eq (n : Nat) :
    (Nat.repr n).data =
      if n = 0 then ['0'] else ((Nat.digits 10 n).map Nat.digitChar).reverse := by
  by_cases hn : n = 0
  · subst hn
    rfl
  · have hpos : 0 < n := Nat.pos_of_ne_zero hn
    have : Nat.repr n = (Nat.toDigitsCore 10 (n + 1) n []).asString := rfl
    rw [this, toDigitsCore_eq_digits (n + 1) n [] hpos (by omega)]
    simp [hn, List.asString]

/-- Strings with equal character data are equal. -/
theorem string_data_inj {a b : String} (h : a.data = b.data) : a = b := by
  cases a
  cases b
  exact congrArg String.mk h

/-- Mapping `digitChar` over lists of digits below ten is injective. -/
theorem map_digitChar_inj :
    ∀ (l1 l2 : List Nat), (∀ d ∈ l1, d < 10) → (∀ d ∈ l2, d < 10) →
      l1.map Nat.digitChar = l2.map Nat.digitChar → l1 = l2 := by
  intro l1
  induction l1 with
  | nil =>
    intro l2 _ _ h
    cases l2
    · rfl
    · simp at h
  | cons a t ih =>
    intro l2 h1 h2 h
    cases l2 with
    | nil => simp at h
    | cons b t2 =>
      simp only [List.map_cons, List.cons.injEq] at h
      have hab : a = b :=
        digitChar_inj_lt a (h1 a (List.mem_cons_self a t)) b
          (h2 b (List.mem_cons_self b t2)) h.1
      have ht : t = t2 :=
        ih t2 (fun d hd => h1 d (List.mem_cons_of_mem a hd))
          (fun d hd => h2 d (List.mem_cons_of_mem b hd)) h.2
      rw [hab, ht]

/-- The decimal rendering `Nat.repr` is injective. -/
theorem natRepr_inj {m n : Nat} (h : Nat.repr m = Nat.repr n) : m = n := by
  have hdata := congrArg String.data h
  rw [repr_data_eq, repr_data_eq] at hdata
  have hzero : ∀ k, 0 < k → ((Nat.digits 10 k).map Nat.digitChar).reverse ≠ ['0'] := by
    intro k hk hrev
    have hmap : (Nat.digits 10 k).map Nat.digitChar = ['0'] := by
      have := congrArg List.reverse hrev
      simpa using this
    cases hd : Nat.digits 10 k with
    | nil => rw [hd] at hmap; simp at hmap
    | cons d t =>
      rw [hd] at hmap
      simp only [List.map_cons, List.cons.injEq, List.map_eq_nil_iff] at hmap
      have hd10 : d < 10 :=
        Nat.digits_lt_base (by norm_num) (hd ▸ List.mem_cons_self d t)
      have hd0 : d = 0 := digitChar_inj_lt d hd10 0 (by norm_num) hmap.1
      have hk0 : k = 0 := by
        have hofd := Nat.ofDigits_digits 10 k
        rw [hd, hd0, hmap.2] at hofd
        simpa [Nat.ofDigits] using hofd.symm
      omega
  by_cases hm : m = 0 <;> by_cases hn : n = 0
  · omega
  · rw [if_pos hm, if_neg hn] at hdata
    exact absurd hdata.symm (hzero n (Nat.pos_of_ne_zero hn))
  · rw [if_neg hm, if_pos hn] at hdata
    exact absurd hdata (hzero m (Nat.pos_of_ne_zero hm))
  · rw [if_neg hm, if_neg hn] at hdata
    have hrev := List.reverse_injective hdata
    have hdig := map_digitChar_inj _ _
      (fun d hd => Nat.digits_lt_base (by norm_num) hd)
      (fun d hd => Nat.digits_lt_base (by norm_num) hd) hrev
    rw [← Nat.ofDigits_digits 10 m, ← Nat.ofDigits_digits 10 n, hdig]

/-- Appending distinct decimal renderings to a common prefix string yields
distinct strings. -/
theorem append_repr_ne (a : String) {t1 t2 : Nat} (h : t1 ≠ t2) :
    a ++ Nat.repr t1 ≠ a ++ Nat.repr t2 := by
  intro heq
  apply h
  apply natRepr_inj
  have hd := congrArg String.data heq
  simp only [String.data_append] at hd
  exact string_data_inj (List.append_cancel_left hd)

/-- C7: two consecutive no-override factory calls produce distinct
identifying keys (numeric ids for Pet/Order/User, generated pet name,
generated username) whenever the millisecond clock readings of the two
calls differ — the formal content of "under normal execution speed" for the
timestamp-based generators; the non-identifying random draws of the two
calls are arbitrary. -/
theorem consecutive_factory_keys_distinct :
    ∀ (t1 t2 : Nat) (pre : String) (rc1 rt1 rc2 rt2 rp1 rq1 rp2 rq2 : ℚ)
      (iso1 iso2 : String),
      t1 ≠ t2 →
      generateUniqueId t1 ≠ generateUniqueId t2 ∧
      generateUniquePetId t1 ≠ generateUniquePetId t2 ∧
      generateUniqueOrderId t1 ≠ generateUniqueOrderId t2 ∧
      generateUniqueUsername pre t1 ≠ generateUniqueUsername pre t2 ∧
      generateUniqueName pre t1 ≠ generateUniqueName pre t2 ∧
      (createPetData t1 t1 t1 rc1 rt1 emptyPetUpd).id ≠
        (createPetData t2 t2 t2 rc2 rt2 emptyPetUpd).id ∧
      (createPetData t1 t1 t1 rc1 rt1 emptyPetUpd).name ≠
        (createPetData t2 t2 t2 rc2 rt2 emptyPetUpd).name ∧
      (createUserData t1 t1 emptyUserUpd).id ≠ (createUserData t2 t2 emptyUserUpd).id ∧
      (createUserData t1 t1 emptyUserUpd).username ≠
        (createUserData t2 t2 emptyUserUpd).username ∧
      (createOrderData t1 rp1 rq1 iso1 emptyOrderUpd).id ≠
        (createOrderData t2 rp2 rq2 iso2 emptyOrderUpd).id := by
  intro t1 t2 pre rc1 rt1 rc2 rt2 rp1 rq1 rp2 rq2 iso1 iso2 h
  have hid : ∀ s : String, s ++ Nat.repr t1 ≠ s ++ Nat.repr t2 :=
    fun s => append_repr_ne s h
  refine ⟨h, h, h, hid (pre ++ "_"), hid (pre ++ "_"), ?_, ?_, ?_, ?_, ?_⟩
  · show some ((t1 : Int)) ≠ some ((t2 : Int))
    intro heq
    apply h
    exact_mod_cast Option.some_injective Int heq
  · show generateUniqueName "TestPet" t1 ≠ generateUniqueName "TestPet" t2
    exact hid "TestPet_"
  · show some ((t1 : Int)) ≠ some ((t2 : Int))
    intro heq
    apply h
    exact_mod_cast Option.some_injective Int heq
  · show some ("testuser_" ++ Nat.repr t1) ≠ some ("testuser_" ++ Nat.repr t2)
    intro heq
    exact hid "testuser_" (Option.some_injective String heq)
  · show some ((t1 : Int)) ≠ some ((t2 : Int))
    intro heq
    apply h
    exact_mod_cast Option.some_injective Int heq

/-- Witness for C7 at clock readings 1 and 2. -/
theorem consecutive_factory_keys_distinct_witness :
    generateUniqueId 1 ≠ generateUniqueId 2 ∧
    generateUniqueUsername "user" 1 ≠ generateUniqueUsername "user" 2 ∧
    (createPetData 1 1 1 0 0 emptyPetUpd).id ≠ (createPetData 2 2 2 0 0 emptyPetUpd).id := by
  have h := consecutive_factory_keys_distinct 1 2 "user" 0 0 0 0 0 0 0 0 "" ""
    (by decide)
  exact ⟨h.1, h.2.2.2.1, h.2.2.2.2.2.1⟩
